import Mathlib

set_option maxHeartbeats 1000000

/-!
Shallow embedding of the TrafficData agent (src/main.go): the traffic
ledger (`TrafficRecords`), the monthly reset logic (`checkAndResetTraffic`),
the counter sampler (`getCurrentTraffic`), the accounting-loop tick body
(`tickUpdate`) and the HTTP query handler (`handleGetTotalTraffic`).
Go uint64 values are modelled as Nat reduced modulo 2 ^ 64 at every
operation Go performs with wraparound; dates and instants are modelled
structurally, with `time.Time.After` as a lexicographic strict order.
-/

/-- Modulus of Go uint64 arithmetic. -/
def M64 : Nat := 2 ^ 64

/-- Wrapping uint64 addition (Go `+` on uint64). -/
def uAdd (a b : Nat) : Nat := (a + b) % M64

/-- Wrapping uint64 subtraction (Go `-` on uint64): for `a b < M64` this is
`(a - b) mod 2^64` with two-complement wraparound on underflow. -/
def uSub (a b : Nat) : Nat := (a % M64 + (M64 - b % M64)) % M64

/-- Calendar date (year, month, day), mirroring the `YYYY-MM-DD` strings of
main.go (`now.Format("2006-01-02")`, `time.Parse`). -/
structure Date where
  year : Nat
  month : Nat
  day : Nat
  deriving DecidableEq

/-- An instant: a date plus a time-of-day offset in nanoseconds
(0 = midnight), modelling Go `time.Time`. -/
structure Instant where
  date : Date
  tod : Nat
  deriving DecidableEq

/-- Lexicographic strict order on dates. -/
def DateLt (a b : Date) : Prop :=
  a.year < b.year ∨
    (a.year = b.year ∧ (a.month < b.month ∨ (a.month = b.month ∧ a.day < b.day)))

instance (a b : Date) : Decidable (DateLt a b) := by
  unfold DateLt
  infer_instance

/-- Strict order on instants: `InstantLt a b` models Go `b.After(a)`. -/
def InstantLt (a b : Instant) : Prop :=
  DateLt a.date b.date ∨ (a.date = b.date ∧ a.tod < b.tod)

instance (a b : Instant) : Decidable (InstantLt a b) := by
  unfold InstantLt
  infer_instance

/-- TrafficData of main.go: one snapshot of cumulative sent/recv bytes. -/
structure TrafficData where
  totalBytesSent : Nat
  totalBytesRecv : Nat
  deriving DecidableEq

/-- TrafficRecords of main.go: the map from boot-time keys (plus the
reserved key "resetSum") to snapshots, modelled as an association list
with at most one binding per key. -/
abbrev TrafficRecords : Type := List (String × TrafficData)

/-- Map read `records[key]` (Go comma-ok form returns the zero value and
`exists = false` when absent, here `none`). -/
def lookupRec : TrafficRecords → String → Option TrafficData
  | [], _ => none
  | (k, v) :: rest, key => if k = key then some v else lookupRec rest key

/-- Map write `records[key] = d`: replaces the binding for `key` if it is
present, otherwise adds it. -/
def upsertRec : TrafficRecords → String → TrafficData → TrafficRecords
  | [], key, d => [(key, d)]
  | (k, v) :: rest, key, d =>
      if k = key then (key, d) :: rest else (k, v) :: upsertRec rest key d

/-- Config of main.go.  `lastResetDate = none` models the empty (or
unparsable) `last_reset_date` string. -/
structure Config where
  resetDay : Nat
  dataFile : String
  lastResetDate : Option Date
  port : Nat
  ifName : String
  deriving DecidableEq

/-- The mutable program state shared between the accounting loop, the reset
logic and the query handler: the config, the records map and the two
package-level globals `senTotal` / `recTotal` written by
`getCurrentTraffic` and read by `checkAndResetTraffic`. -/
structure AppState where
  config : Config
  records : TrafficRecords
  senTotal : Nat
  recTotal : Nat
  deriving DecidableEq

/-- `time.Parse("2006-01-02", config.LastResetDate)`: a valid stored date
parses to its midnight; the empty string fails to parse and the ignored
error leaves the zero `time.Time` (January 1 of year 1). -/
def parseLastReset : Option Date → Instant
  | none => ⟨⟨1, 1, 1⟩, 0⟩
  | some d => ⟨d, 0⟩

/-- `time.Date(now.Year(), now.Month(), config.ResetDay, 0, 0, 0, 0, UTC)`:
midnight on day `resetDay` of the current month. -/
def resetBoundary (now : Instant) (c : Config) : Instant :=
  ⟨⟨now.date.year, now.date.month, c.resetDay⟩, 0⟩

/-- checkAndResetTraffic of main.go.  If `now.After(resetDate)` and
`resetDate.After(lastRestday)`: delete every key of the records map, set
`LastResetDate` to the current date, and then, when either global running
total is positive, store `(senTotal, recTotal)` under the reserved key
"resetSum" (looked up in the already-cleared map, so the previous baseline
is gone).  File persistence is modelled as a no-op on the state. -/
def checkAndResetTraffic (now : Instant) (s : AppState) : AppState :=
  if InstantLt (resetBoundary now s.config) now ∧
      InstantLt (parseLastReset s.config.lastResetDate) (resetBoundary now s.config) then
    let clearedRecords : TrafficRecords := []
    let newConfig := { s.config with lastResetDate := some now.date }
    let newRecords :=
      if 0 < s.recTotal ∨ 0 < s.senTotal then
        let data := (lookupRec clearedRecords "resetSum").getD ⟨0, 0⟩
        upsertRec clearedRecords "resetSum"
          { data with totalBytesSent := s.senTotal, totalBytesRecv := s.recTotal }
      else clearedRecords
    { s with config := newConfig, records := newRecords }
  else s

/-- Accumulator of the range loop in handleGetTotalTraffic. -/
structure ScanAcc where
  totalSent : Nat
  totalRecv : Nat
  resetSent : Nat
  resetRecv : Nat
  deriving DecidableEq

/-- The range loop of handleGetTotalTraffic: a "resetSum" entry loads the
reset fields, every other entry is added (uint64 wrapping) to the totals. -/
def handlerScanAux : TrafficRecords → ScanAcc → ScanAcc
  | [], acc => acc
  | (k, d) :: rest, acc =>
      if k = "resetSum" then
        handlerScanAux rest
          { acc with resetSent := d.totalBytesSent, resetRecv := d.totalBytesRecv }
      else
        handlerScanAux rest
          { acc with
              totalSent := uAdd acc.totalSent d.totalBytesSent,
              totalRecv := uAdd acc.totalRecv d.totalBytesRecv }

/-- The loop of handleGetTotalTraffic started from all-zero accumulators. -/
def handlerScan (r : TrafficRecords) : ScanAcc := handlerScanAux r ⟨0, 0, 0, 0⟩

/-- The aggregate the handler computes: `totalSent -= resetSent` and
`totalRecv -= resetRecv` with Go uint64 (wrapping) subtraction. -/
def aggregateTotals (r : TrafficRecords) : Nat × Nat :=
  (uSub (handlerScan r).totalSent (handlerScan r).resetSent,
   uSub (handlerScan r).totalRecv (handlerScan r).resetRecv)

/-- The snapshot stored under the reserved baseline key (zero if absent). -/
def baseOf (r : TrafficRecords) : TrafficData :=
  (lookupRec r "resetSum").getD ⟨0, 0⟩

/-- One entry of `net.IOCounters(true)`: interface name and cumulative
byte counters. -/
structure IOCounterStat where
  name : String
  bytesSent : Nat
  bytesRecv : Nat
  deriving DecidableEq

/-- The summation loop of getCurrentTraffic: with a non-nil non-empty
interface filter only matching interfaces are added; otherwise every
interface is added (uint64 wrapping adds). -/
def sumCounters : Option String → List IOCounterStat → Nat × Nat → Nat × Nat
  | _, [], acc => acc
  | ifname, i :: rest, acc =>
      match ifname with
      | some n =>
          if n ≠ "" then
            if n = i.name then
              sumCounters ifname rest (uAdd acc.1 i.bytesSent, uAdd acc.2 i.bytesRecv)
            else
              sumCounters ifname rest acc
          else
            sumCounters ifname rest (uAdd acc.1 i.bytesSent, uAdd acc.2 i.bytesRecv)
      | none => sumCounters ifname rest (uAdd acc.1 i.bytesSent, uAdd acc.2 i.bytesRecv)

/-- getCurrentTraffic of main.go, pure result: `net.IOCounters` failure is
propagated; otherwise the filtered sums are returned with no error. -/
def getCurrentTraffic (ifname : Option String)
    (counters : Except Unit (List IOCounterStat)) : Except Unit (Nat × Nat) :=
  match counters with
  | Except.error e => Except.error e
  | Except.ok ifaces => Except.ok (sumCounters ifname ifaces (0, 0))

/-- getCurrentTraffic including its write to the package globals: on
success it stores the computed sums into `senTotal` / `recTotal`; on
`net.IOCounters` failure it returns before touching them. -/
def getCurrentTrafficS (s : AppState)
    (counters : Except Unit (List IOCounterStat)) :
    AppState × Except Unit (Nat × Nat) :=
  match counters with
  | Except.error e => (s, Except.error e)
  | Except.ok ifaces =>
      let t := sumCounters (some s.config.ifName) ifaces (0, 0)
      ({ s with senTotal := t.1, recTotal := t.2 }, Except.ok t)

/-- The JSON response of handleGetTotalTraffic.  Each field holds the
integer that main.go feeds into the corresponding float64 field (the
MB fields before their division by 1024*1024); the current fields are
int64 and carry the -1 sentinel on sampling failure. -/
structure QueryResponse where
  totalBytesSentMB : Nat
  totalBytesReceivedMB : Nat
  totalBytesSent : Nat
  totalBytesReceived : Nat
  currentBytesSentMB : Int
  currentBytesReceivedMB : Int
  deriving DecidableEq

/-- handleGetTotalTraffic of main.go: scans the records map, subtracts the
reset baseline with wrapping uint64 subtraction, samples the counters
(mutating the globals on success, -1 sentinels on failure), and builds the
response map — every one of the four total fields is filled from
`totalRecv`, exactly as in the source. -/
def handleGetTotalTraffic (s : AppState)
    (counters : Except Unit (List IOCounterStat)) : AppState × QueryResponse :=
  let a := aggregateTotals s.records
  let res := getCurrentTrafficS s counters
  let sr : Int × Int :=
    match res.2 with
    | Except.error _ => (-1, -1)
    | Except.ok t => ((t.1 : Int), (t.2 : Int))
  (res.1,
   { totalBytesSentMB := a.2
     totalBytesReceivedMB := a.2
     totalBytesSent := a.2
     totalBytesReceived := a.2
     currentBytesSentMB := sr.1
     currentBytesReceivedMB := sr.2 })

/-- The per-tick update of the accounting loop in main, after a successful
sample `(sent, recv)` for boot key `bootTime`: `getCurrentTraffic` has set
the globals to the sampled values and the loop replaces the snapshot under
`bootTime` with them. -/
def tickUpdate (s : AppState) (bootTime : String) (sent recv : Nat) : AppState :=
  { s with
      senTotal := sent
      recTotal := recv
      records := upsertRec s.records bootTime ⟨sent, recv⟩ }

/-- Configuration used by the concrete scenarios: resetDay 10, last reset
2024-07-15 (spec section 8, scenarios 6 and 7). -/
def cfgA : Config :=
  { resetDay := 10
    dataFile := "traffic_data.json"
    lastResetDate := some ⟨2024, 7, 15⟩
    port := 28080
    ifName := "eth0" }

/-- Scenario state: one live session "sessA" with (100, 200), globals
holding the just-sampled values (100, 200). -/
def stateSessA : AppState :=
  { config := cfgA
    records := [("sessA", ⟨100, 200⟩)]
    senTotal := 100
    recTotal := 200 }

/-- State with two boot sessions, the globals reflecting only the current
session "sessA". -/
def stateTwoSessions : AppState :=
  { config := cfgA
    records := [("sessA", ⟨100, 200⟩), ("sessB", ⟨50, 50⟩)]
    senTotal := 100
    recTotal := 200 }

/-- State whose ledger holds only an existing baseline of (100, 100) while
the globals hold a smaller fresh sample (5, 5). -/
def stateBigBaseline : AppState :=
  { config := cfgA
    records := [("resetSum", ⟨100, 100⟩)]
    senTotal := 5
    recTotal := 5 }

/-- State for the query-handler evaluations: one session, zero globals. -/
def stateQuery : AppState :=
  { config := cfgA
    records := [("sessA", ⟨1, 2⟩)]
    senTotal := 0
    recTotal := 0 }

/-- An instant strictly after midnight on 2024-08-10. -/
def nowAug10 : Instant := ⟨⟨2024, 8, 10⟩, 1⟩

/-- The exact reset boundary instant: midnight on 2024-08-10. -/
def nowBoundary : Instant := ⟨⟨2024, 8, 10⟩, 0⟩

/-! ### Helper lemmas -/

theorem DateLt_irrefl (a : Date) : ¬ DateLt a a := by
  unfold DateLt
  omega

theorem DateLt_asymm {a b : Date} (h : DateLt a b) : ¬ DateLt b a := by
  unfold DateLt at h ⊢
  omega

theorem lookupRec_upsertRec_ne (r : TrafficRecords) (k key : String)
    (d : TrafficData) (h : k ≠ key) :
    lookupRec (upsertRec r k d) key = lookupRec r key := by
  induction r with
  | nil => simp [upsertRec, lookupRec, h]
  | cons p rest ih =>
      obtain ⟨k0, v0⟩ := p
      by_cases hk : k0 = k
      · subst hk
        simp [upsertRec, lookupRec, h]
      · simp [upsertRec, lookupRec, hk, ih]

theorem checkAndResetTraffic_config_of_fire (s : AppState) (now : Instant)
    (hfire : InstantLt (resetBoundary now s.config) now ∧
      InstantLt (parseLastReset s.config.lastResetDate) (resetBoundary now s.config)) :
    (checkAndResetTraffic now s).config =
      { s.config with lastResetDate := some now.date } := by
  unfold checkAndResetTraffic
  rw [if_pos hfire]

theorem checkAndResetTraffic_id_of_not_fire (s : AppState) (now : Instant)
    (h : ¬ (InstantLt (resetBoundary now s.config) now ∧
      InstantLt (parseLastReset s.config.lastResetDate) (resetBoundary now s.config))) :
    checkAndResetTraffic now s = s := by
  unfold checkAndResetTraffic
  rw [if_neg h]

/-! ### C6 — firing condition -/

/-- C6 (amended): the Armed-to-Fired transition happens when `now` is
STRICTLY after the reset boundary (midnight on day `resetDay` of the
current month) and the parsed `lastResetDate` is strictly before the
boundary; when `now` is not strictly after the boundary — in particular at
the boundary instant itself — the evaluation changes nothing. -/
theorem claim6_firing_strict (s : AppState) (now : Instant) :
    ((InstantLt (resetBoundary now s.config) now ∧
        InstantLt (parseLastReset s.config.lastResetDate) (resetBoundary now s.config)) →
      (checkAndResetTraffic now s).config.lastResetDate = some now.date)
    ∧ (¬ InstantLt (resetBoundary now s.config) now → checkAndResetTraffic now s = s) := by
  constructor
  · intro hfire
    rw [checkAndResetTraffic_config_of_fire s now hfire]
  · intro h
    exact checkAndResetTraffic_id_of_not_fire s now (fun hc => h hc.1)

/-- C6 witness: both parts of `claim6_firing_strict` applied at concrete
inputs — a tick strictly after the 2024-08-10 boundary updates
`lastResetDate`, and a tick at the exact boundary instant is a no-op. -/
theorem claim6_firing_strict_witness :
    ((InstantLt (resetBoundary nowAug10 stateSessA.config) nowAug10 ∧
        InstantLt (parseLastReset stateSessA.config.lastResetDate)
          (resetBoundary nowAug10 stateSessA.config))
      ∧ (checkAndResetTraffic nowAug10 stateSessA).config.lastResetDate
          = some nowAug10.date)
    ∧ (¬ InstantLt (resetBoundary nowBoundary stateSessA.config) nowBoundary
      ∧ checkAndResetTraffic nowBoundary stateSessA = stateSessA) :=
  ⟨⟨by decide, (claim6_firing_strict stateSessA nowAug10).1 (by decide)⟩,
   ⟨by decide, (claim6_firing_strict stateSessA nowBoundary).2 (by decide)⟩⟩

/-- C6 counterexample: at the exact boundary instant (midnight 2024-08-10,
`resetDay = 10`, `lastResetDate = 2024-07-15` before the boundary) the
claim says the reset fires (`now >= boundary`), but the code uses the
strict `now.After(resetDate)` and performs no reset. -/
theorem claim6_counterexample :
    InstantLt (parseLastReset stateSessA.config.lastResetDate)
      (resetBoundary nowBoundary stateSessA.config)
    ∧ nowBoundary = resetBoundary nowBoundary stateSessA.config
    ∧ checkAndResetTraffic nowBoundary stateSessA = stateSessA
    ∧ (checkAndResetTraffic nowBoundary stateSessA).config.lastResetDate
        ≠ some nowBoundary.date := by
  decide

/-! ### C7 — concrete reset scenario -/

/-- C7: with `resetDay = 10`, `lastResetDate = "2024-07-15"`, ledger
holding exactly `sessA = (100, 200)` (and the globals holding the sample
just taken for `sessA`), a reset evaluation at any instant strictly after
midnight on 2024-08-10 fires: the resulting ledger is exactly
`resetSum = (100, 200)` and `lastResetDate` becomes 2024-08-10. -/
theorem claim7_scenario (tod : Nat) (h : 0 < tod) :
    (checkAndResetTraffic ⟨⟨2024, 8, 10⟩, tod⟩ stateSessA).records
        = [("resetSum", ⟨100, 200⟩)]
    ∧ (checkAndResetTraffic ⟨⟨2024, 8, 10⟩, tod⟩ stateSessA).config.lastResetDate
        = some ⟨2024, 8, 10⟩ := by
  have hfire : InstantLt (resetBoundary ⟨⟨2024, 8, 10⟩, tod⟩ stateSessA.config)
        ⟨⟨2024, 8, 10⟩, tod⟩ ∧
      InstantLt (parseLastReset stateSessA.config.lastResetDate)
        (resetBoundary ⟨⟨2024, 8, 10⟩, tod⟩ stateSessA.config) :=
    ⟨Or.inr ⟨rfl, h⟩, Or.inl (Or.inr ⟨rfl, Or.inl (by norm_num [stateSessA, cfgA, parseLastReset, resetBoundary])⟩)⟩
  unfold checkAndResetTraffic
  rw [if_pos hfire]
  exact ⟨rfl, rfl⟩

/-- C7 witness: the scenario evaluated at one second past midnight. -/
theorem claim7_scenario_witness :
    0 < 1
    ∧ ((checkAndResetTraffic ⟨⟨2024, 8, 10⟩, 1⟩ stateSessA).records
          = [("resetSum", ⟨100, 200⟩)]
      ∧ (checkAndResetTraffic ⟨⟨2024, 8, 10⟩, 1⟩ stateSessA).config.lastResetDate
          = some ⟨2024, 8, 10⟩) :=
  ⟨by decide, claim7_scenario 1 (by decide)⟩

/-! ### C5 — reset idempotence -/

/-- C5: once a reset has fired at `now1`, a second evaluation at any `now2`
in the same calendar month — with a fresh sample upserted for a live
session in between — performs no reset: the whole state (in particular the
"resetSum" entry and `lastResetDate`) is unchanged by the second call. -/
theorem claim5_reset_idempotent (s : AppState) (now1 now2 : Instant)
    (key : String) (sent recv : Nat)
    (hfire : InstantLt (resetBoundary now1 s.config) now1 ∧
      InstantLt (parseLastReset s.config.lastResetDate) (resetBoundary now1 s.config))
    (hy : now2.date.year = now1.date.year)
    (hm : now2.date.month = now1.date.month) :
    checkAndResetTraffic now2 (tickUpdate (checkAndResetTraffic now1 s) key sent recv)
      = tickUpdate (checkAndResetTraffic now1 s) key sent recv := by
  apply checkAndResetTraffic_id_of_not_fire
  intro hcond
  have hconf : (checkAndResetTraffic now1 s).config =
      { s.config with lastResetDate := some now1.date } :=
    checkAndResetTraffic_config_of_fire s now1 hfire
  have hc2 : (tickUpdate (checkAndResetTraffic now1 s) key sent recv).config =
      { s.config with lastResetDate := some now1.date } := by
    simpa [tickUpdate] using hconf
  have h2 := hcond.2
  rw [hc2] at h2
  have h1 := hfire.1
  obtain ⟨⟨y1, m1, d1⟩, t1⟩ := now1
  obtain ⟨⟨y2, m2, d2⟩, t2⟩ := now2
  simp only at hy hm
  subst hy
  subst hm
  simp only [resetBoundary, parseLastReset, InstantLt, DateLt, Date.mk.injEq,
    Instant.mk.injEq] at h1 h2
  omega

/-- C5 witness: `claim5_reset_idempotent` applied to the 2024-08-10
scenario, with a fresh `sessA` sample between the two evaluations. -/
theorem claim5_reset_idempotent_witness :
    ((InstantLt (resetBoundary nowAug10 stateSessA.config) nowAug10 ∧
        InstantLt (parseLastReset stateSessA.config.lastResetDate)
          (resetBoundary nowAug10 stateSessA.config))
      ∧ (⟨⟨2024, 8, 10⟩, 2⟩ : Instant).date.year = nowAug10.date.year
      ∧ (⟨⟨2024, 8, 10⟩, 2⟩ : Instant).date.month = nowAug10.date.month)
    ∧ checkAndResetTraffic ⟨⟨2024, 8, 10⟩, 2⟩
        (tickUpdate (checkAndResetTraffic nowAug10 stateSessA) "sessA" 7 9)
      = tickUpdate (checkAndResetTraffic nowAug10 stateSessA) "sessA" 7 9 :=
  ⟨⟨by decide, rfl, rfl⟩,
   claim5_reset_idempotent stateSessA nowAug10 ⟨⟨2024, 8, 10⟩, 2⟩ "sessA" 7 9
     (by decide) rfl rfl⟩

/-! ### C1 — conservation across reset -/

/-- C1 (amended): when a reset fires (and either running total is
positive), the live entries AND the previous baseline are discarded, and
the resulting ledger consists exactly of a "resetSum" entry holding the
last sampled running totals `(senTotal, recTotal)` — a replacement, not an
accumulation.  Conservation therefore holds only in the special case where
those running totals coincide with the live-session sums and no prior
baseline exists. -/
theorem claim1_reset_replaces_baseline (s : AppState) (now : Instant)
    (hfire : InstantLt (resetBoundary now s.config) now ∧
      InstantLt (parseLastReset s.config.lastResetDate) (resetBoundary now s.config))
    (hpos : 0 < s.recTotal ∨ 0 < s.senTotal) :
    (checkAndResetTraffic now s).records = [("resetSum", ⟨s.senTotal, s.recTotal⟩)]
    ∧ baseOf (checkAndResetTraffic now s).records = ⟨s.senTotal, s.recTotal⟩ := by
  unfold checkAndResetTraffic
  rw [if_pos hfire]
  dsimp only
  rw [if_pos hpos]
  simp [upsertRec, lookupRec, baseOf]

/-- C1 witness: `claim1_reset_replaces_baseline` at the two-session state
on 2024-08-10. -/
theorem claim1_reset_replaces_baseline_witness :
    ((InstantLt (resetBoundary nowAug10 stateTwoSessions.config) nowAug10 ∧
        InstantLt (parseLastReset stateTwoSessions.config.lastResetDate)
          (resetBoundary nowAug10 stateTwoSessions.config))
      ∧ (0 < stateTwoSessions.recTotal ∨ 0 < stateTwoSessions.senTotal))
    ∧ ((checkAndResetTraffic nowAug10 stateTwoSessions).records
          = [("resetSum", ⟨stateTwoSessions.senTotal, stateTwoSessions.recTotal⟩)]
      ∧ baseOf (checkAndResetTraffic nowAug10 stateTwoSessions).records
          = ⟨stateTwoSessions.senTotal, stateTwoSessions.recTotal⟩) :=
  ⟨⟨by decide, by decide⟩,
   claim1_reset_replaces_baseline stateTwoSessions nowAug10 (by decide) (by decide)⟩

/-- C1 counterexample: two live boot sessions `sessA = (100, 200)` and
`sessB = (50, 50)`, no prior baseline, globals holding the current-session
sample (100, 200).  The reset fires on 2024-08-10, the aggregate
immediately before is 150 sent, but `baseline_after − baseline_before`
is only 100: the 50 bytes of `sessB` are lost, so conservation fails. -/
theorem claim1_counterexample :
    (InstantLt (resetBoundary nowAug10 stateTwoSessions.config) nowAug10 ∧
      InstantLt (parseLastReset stateTwoSessions.config.lastResetDate)
        (resetBoundary nowAug10 stateTwoSessions.config))
    ∧ (aggregateTotals stateTwoSessions.records).1 = 150
    ∧ (baseOf (checkAndResetTraffic nowAug10 stateTwoSessions).records).totalBytesSent
        - (baseOf stateTwoSessions.records).totalBytesSent = 100
    ∧ (aggregateTotals stateTwoSessions.records).1
        ≠ (baseOf (checkAndResetTraffic nowAug10 stateTwoSessions).records).totalBytesSent
          - (baseOf stateTwoSessions.records).totalBytesSent := by
  decide

/-! ### C2 — baseline invariant -/

/-- C2 (amended): the "resetSum" snapshot is untouched by a per-tick
upsert under any other key, and by a reset evaluation whose firing
condition is false; but a reset that fires replaces it with the current
running totals (and removes it when both are zero), so it does not only
grow. -/
theorem claim2_baseline_frame (r : TrafficRecords) (k : String) (d : TrafficData)
    (s : AppState) (now : Instant) :
    (k ≠ "resetSum" → lookupRec (upsertRec r k d) "resetSum" = lookupRec r "resetSum")
    ∧ (¬ (InstantLt (resetBoundary now s.config) now ∧
        InstantLt (parseLastReset s.config.lastResetDate) (resetBoundary now s.config)) →
      checkAndResetTraffic now s = s) :=
  ⟨fun h => lookupRec_upsertRec_ne r k "resetSum" d h,
   fun h => checkAndResetTraffic_id_of_not_fire s now h⟩

/-- C2 witness: `claim2_baseline_frame` applied to a ledger whose baseline
is (9, 9): an upsert under "sessB" preserves it, and a boundary-instant
evaluation (which does not fire) is the identity. -/
theorem claim2_baseline_frame_witness :
    ("sessB" ≠ "resetSum"
      ∧ lookupRec (upsertRec [("resetSum", (⟨9, 9⟩ : TrafficData))] "sessB" ⟨1, 2⟩)
          "resetSum"
          = lookupRec [("resetSum", (⟨9, 9⟩ : TrafficData))] "resetSum")
    ∧ (¬ (InstantLt (resetBoundary nowBoundary stateBigBaseline.config) nowBoundary ∧
          InstantLt (parseLastReset stateBigBaseline.config.lastResetDate)
            (resetBoundary nowBoundary stateBigBaseline.config))
      ∧ checkAndResetTraffic nowBoundary stateBigBaseline = stateBigBaseline) :=
  ⟨⟨by decide,
    (claim2_baseline_frame [("resetSum", ⟨9, 9⟩)] "sessB" ⟨1, 2⟩ stateBigBaseline
        nowBoundary).1 (by decide)⟩,
   ⟨by decide,
    (claim2_baseline_frame [("resetSum", ⟨9, 9⟩)] "sessB" ⟨1, 2⟩ stateBigBaseline
        nowBoundary).2 (by decide)⟩⟩

/-- C2 counterexample: a reset firing on 2024-08-10 with running totals
(5, 5) replaces the stored baseline (100, 100) by (5, 5): both components
of the reserved snapshot shrink, contradicting the only-grows invariant. -/
theorem claim2_counterexample :
    (InstantLt (resetBoundary nowAug10 stateBigBaseline.config) nowAug10 ∧
      InstantLt (parseLastReset stateBigBaseline.config.lastResetDate)
        (resetBoundary nowAug10 stateBigBaseline.config))
    ∧ (baseOf (checkAndResetTraffic nowAug10 stateBigBaseline).records).totalBytesSent
        < (baseOf stateBigBaseline.records).totalBytesSent
    ∧ (baseOf (checkAndResetTraffic nowAug10 stateBigBaseline).records).totalBytesRecv
        < (baseOf stateBigBaseline.records).totalBytesRecv := by
  decide

/-! ### C3 — aggregate computation -/

theorem handlerScanAux_bounds (r : TrafficRecords) :
    ∀ acc : ScanAcc,
      (∀ p ∈ r, p.2.totalBytesSent < M64 ∧ p.2.totalBytesRecv < M64) →
      acc.totalSent < M64 → acc.totalRecv < M64 →
      acc.resetSent < M64 → acc.resetRecv < M64 →
      (handlerScanAux r acc).totalSent < M64 ∧ (handlerScanAux r acc).totalRecv < M64 ∧
        (handlerScanAux r acc).resetSent < M64 ∧ (handlerScanAux r acc).resetRecv < M64 := by
  induction r with
  | nil =>
      intro acc _ h1 h2 h3 h4
      exact ⟨h1, h2, h3, h4⟩
  | cons p rest ih =>
      intro acc hv h1 h2 h3 h4
      obtain ⟨k, d⟩ := p
      have hd := hv (k, d) (List.mem_cons_self _ _)
      have hM : 0 < M64 := by norm_num [M64]
      by_cases hk : k = "resetSum"
      · rw [handlerScanAux, if_pos hk]
        exact ih _ (fun q hq => hv q (List.mem_cons_of_mem _ hq)) h1 h2 hd.1 hd.2
      · rw [handlerScanAux, if_neg hk]
        exact ih _ (fun q hq => hv q (List.mem_cons_of_mem _ hq))
          (Nat.mod_lt _ hM) (Nat.mod_lt _ hM) h3 h4

theorem uSub_eq (a b : Nat) (ha : a < M64) (hb : b < M64) :
    uSub a b = if b ≤ a then a - b else M64 - (b - a) := by
  have hM : M64 = 18446744073709551616 := by norm_num [M64]
  unfold uSub
  rw [hM] at ha hb ⊢
  by_cases h : b ≤ a
  · rw [if_pos h]
    omega
  · rw [if_neg h]
    omega

/-- C3 (amended): the aggregate sums the snapshots of every key except the
reserved "resetSum" key (with wrapping uint64 additions) and then subtracts
the resetSum values component-wise with WRAPPING uint64 subtraction: when
the baseline does not exceed the total the difference is exact, but when
the baseline exceeds the total the result wraps to `2^64 − (base − total)`
instead of saturating at zero. -/
theorem claim3_aggregate_wraps (r : TrafficRecords)
    (hv : ∀ p ∈ r, p.2.totalBytesSent < M64 ∧ p.2.totalBytesRecv < M64) :
    (aggregateTotals r).1
        = (if (handlerScan r).resetSent ≤ (handlerScan r).totalSent
            then (handlerScan r).totalSent - (handlerScan r).resetSent
            else M64 - ((handlerScan r).resetSent - (handlerScan r).totalSent))
    ∧ (aggregateTotals r).2
        = (if (handlerScan r).resetRecv ≤ (handlerScan r).totalRecv
            then (handlerScan r).totalRecv - (handlerScan r).resetRecv
            else M64 - ((handlerScan r).resetRecv - (handlerScan r).totalRecv)) := by
  have hM : 0 < M64 := by norm_num [M64]
  have hb := handlerScanAux_bounds r ⟨0, 0, 0, 0⟩ hv hM hM hM hM
  exact ⟨uSub_eq _ _ hb.1 hb.2.2.1, uSub_eq _ _ hb.2.1 hb.2.2.2⟩

/-- C3 witness: `claim3_aggregate_wraps` on a ledger with baseline (10, 0)
and one live session (3, 4): the sent direction underflows and wraps to
`2^64 − 7`, the recv direction subtracts exactly. -/
theorem claim3_aggregate_wraps_witness :
    (∀ p ∈ [("resetSum", (⟨10, 0⟩ : TrafficData)), ("sessA", ⟨3, 4⟩)],
        p.2.totalBytesSent < M64 ∧ p.2.totalBytesRecv < M64)
    ∧ ((aggregateTotals [("resetSum", ⟨10, 0⟩), ("sessA", ⟨3, 4⟩)]).1
        = (if (handlerScan [("resetSum", ⟨10, 0⟩), ("sessA", ⟨3, 4⟩)]).resetSent
              ≤ (handlerScan [("resetSum", ⟨10, 0⟩), ("sessA", ⟨3, 4⟩)]).totalSent
            then (handlerScan [("resetSum", ⟨10, 0⟩), ("sessA", ⟨3, 4⟩)]).totalSent
              - (handlerScan [("resetSum", ⟨10, 0⟩), ("sessA", ⟨3, 4⟩)]).resetSent
            else M64 - ((handlerScan [("resetSum", ⟨10, 0⟩), ("sessA", ⟨3, 4⟩)]).resetSent
              - (handlerScan [("resetSum", ⟨10, 0⟩), ("sessA", ⟨3, 4⟩)]).totalSent))
      ∧ (aggregateTotals [("resetSum", ⟨10, 0⟩), ("sessA", ⟨3, 4⟩)]).2
        = (if (handlerScan [("resetSum", ⟨10, 0⟩), ("sessA", ⟨3, 4⟩)]).resetRecv
              ≤ (handlerScan [("resetSum", ⟨10, 0⟩), ("sessA", ⟨3, 4⟩)]).totalRecv
            then (handlerScan [("resetSum", ⟨10, 0⟩), ("sessA", ⟨3, 4⟩)]).totalRecv
              - (handlerScan [("resetSum", ⟨10, 0⟩), ("sessA", ⟨3, 4⟩)]).resetRecv
            else M64 - ((handlerScan [("resetSum", ⟨10, 0⟩), ("sessA", ⟨3, 4⟩)]).resetRecv
              - (handlerScan [("resetSum", ⟨10, 0⟩), ("sessA", ⟨3, 4⟩)]).totalRecv))) :=
  ⟨by decide, claim3_aggregate_wraps [("resetSum", ⟨10, 0⟩), ("sessA", ⟨3, 4⟩)] (by decide)⟩

/-- C3 counterexample: on the ledger whose only entry is the baseline
`resetSum = (10, 10)` the live sum is 0 and the baseline exceeds it, yet
the aggregate is `2^64 − 10`, not the saturated 0 the claim requires. -/
theorem claim3_counterexample :
    (handlerScan [("resetSum", (⟨10, 10⟩ : TrafficData))]).totalSent = 0
    ∧ (handlerScan [("resetSum", (⟨10, 10⟩ : TrafficData))]).resetSent = 10
    ∧ (aggregateTotals [("resetSum", (⟨10, 10⟩ : TrafficData))]).1
        = 18446744073709551606
    ∧ (aggregateTotals [("resetSum", (⟨10, 10⟩ : TrafficData))]).1 ≠ 0 := by
  decide

/-! ### C4 — query response fields -/

/-- C4 evaluation at the failing input: on the ledger `sessA = (100, 200)`
the aggregate sent total is 100 and the received total is 200, yet the
response fills `total_bytes_sent` (and `total_bytes_sent_mb`) with 200 —
the received value — and the only current-tick fields are the MB-scaled
ones, which do carry the −1 sentinel when the counter read fails. -/
theorem claim4_sent_uses_recv :
    (aggregateTotals stateSessA.records).1 = 100
    ∧ (aggregateTotals stateSessA.records).2 = 200
    ∧ (handleGetTotalTraffic stateSessA (Except.ok [⟨"eth0", 1, 2⟩])).2.totalBytesSent
        = 200
    ∧ (handleGetTotalTraffic stateSessA (Except.ok [⟨"eth0", 1, 2⟩])).2.totalBytesSentMB
        = 200
    ∧ (handleGetTotalTraffic stateSessA (Except.ok [⟨"eth0", 1, 2⟩])).2.totalBytesSent
        ≠ (aggregateTotals stateSessA.records).1
    ∧ (handleGetTotalTraffic stateSessA (Except.error ())).2.currentBytesSentMB = -1
    ∧ (handleGetTotalTraffic stateSessA (Except.error ())).2.currentBytesReceivedMB
        = -1 := by
  decide

/-! ### C8 — query-path purity -/

/-- C8 evaluation at the failing input: serving a query leaves the ledger
and the config unchanged, but the ad-hoc counter sample taken by the
handler overwrites the package globals `senTotal` / `recTotal` — state
that `checkAndResetTraffic` reads to build the reset baseline — with the
freshly sampled values (5, 7), so the handler does mutate shared
accounting state. -/
theorem claim8_handler_mutates_globals :
    (handleGetTotalTraffic stateQuery (Except.ok [⟨"eth0", 5, 7⟩])).1.records
        = stateQuery.records
    ∧ (handleGetTotalTraffic stateQuery (Except.ok [⟨"eth0", 5, 7⟩])).1.config
        = stateQuery.config
    ∧ stateQuery.senTotal = 0
    ∧ stateQuery.recTotal = 0
    ∧ (handleGetTotalTraffic stateQuery (Except.ok [⟨"eth0", 5, 7⟩])).1.senTotal = 5
    ∧ (handleGetTotalTraffic stateQuery (Except.ok [⟨"eth0", 5, 7⟩])).1.recTotal = 7 := by
  decide

/-! ### C10 — interface filter behavior -/

theorem sumCounters_of_no_match (n : String) (hn : n ≠ "") :
    ∀ (l : List IOCounterStat) (acc : Nat × Nat),
      (∀ i ∈ l, i.name ≠ n) → sumCounters (some n) l acc = acc := by
  intro l
  induction l with
  | nil =>
      intro acc _
      rfl
  | cons i rest ih =>
      intro acc hmiss
      have hi : i.name ≠ n := hmiss i (List.mem_cons_self _ _)
      rw [sumCounters]
      simp only [if_pos hn]
      rw [if_neg (fun h => hi h.symm)]
      exact ih acc (fun j hj => hmiss j (List.mem_cons_of_mem _ hj))

/-- C10: with a non-empty interface filter that matches none of the
reported interface names, `getCurrentTraffic` succeeds with totals (0, 0);
and it returns an error exactly when the underlying platform counter query
fails — every successful query produces a success result. -/
theorem claim10_no_match_zero (filter : String) (ifaces : List IOCounterStat)
    (hne : filter ≠ "") (hmiss : ∀ i ∈ ifaces, i.name ≠ filter) :
    getCurrentTraffic (some filter) (Except.ok ifaces) = Except.ok (0, 0)
    ∧ (∀ l : List IOCounterStat,
        getCurrentTraffic (some filter) (Except.ok l)
          = Except.ok (sumCounters (some filter) l (0, 0)))
    ∧ (∀ e : Unit, getCurrentTraffic (some filter) (Except.error e)
        = Except.error e) := by
  refine ⟨?_, fun l => rfl, fun e => rfl⟩
  show Except.ok (sumCounters (some filter) ifaces (0, 0)) = Except.ok (0, 0)
  rw [sumCounters_of_no_match filter hne ifaces (0, 0) hmiss]

/-- C10 witness: filter "wg0" against a platform report containing only
"eth0". -/
theorem claim10_no_match_zero_witness :
    (("wg0" : String) ≠ ""
      ∧ (∀ i ∈ [(⟨"eth0", 5, 7⟩ : IOCounterStat)], i.name ≠ "wg0"))
    ∧ (getCurrentTraffic (some "wg0") (Except.ok [⟨"eth0", 5, 7⟩]) = Except.ok (0, 0)
      ∧ (∀ l : List IOCounterStat,
          getCurrentTraffic (some "wg0") (Except.ok l)
            = Except.ok (sumCounters (some "wg0") l (0, 0)))
      ∧ (∀ e : Unit, getCurrentTraffic (some "wg0") (Except.error e)
          = Except.error e)) :=
  ⟨⟨by decide, by decide⟩,
   claim10_no_match_zero "wg0" [⟨"eth0", 5, 7⟩] (by decide) (by decide)⟩
